import Mathlib

/-!
Verification of the chat relay server (src/server.js): session registry,
message routing, presence events and the upload endpoint, modelled as a
shallow embedding.  JavaScript values that can reach the handlers are
modelled by the type JPrim; the socket.io side effects are modelled as
explicit lists of emitted events and deliveries.
-/

namespace ChatApp

/-- Connection identifiers are the socket ids handed out by socket.io:
opaque strings. -/
abbrev ConnId := String

/-- JavaScript primitive values that can appear in a client-supplied payload
or a multipart form field.  The constructor obj stands for a plain object
(for example a JSON object sent by a client); such an object is truthy and,
like numbers and booleans, has no trim method. -/
inductive JPrim where
  | str (s : String)
  | num (n : Int)
  | bool (b : Bool)
  | nullv
  | undefinedv
  | obj
deriving DecidableEq, Repr

/-- JavaScript truthiness for the values of JPrim: empty string, zero,
false, null and undefined are falsy; everything else is truthy. -/
def truthy : JPrim → Bool
  | .str s => !(s == "")
  | .num n => !(n == 0)
  | .bool b => b
  | .nullv => false
  | .undefinedv => false
  | .obj => true

/-- The users object of server.js (socket.id -> username), embedded as an
insertion-ordered association list, matching the enumeration order of
Object.entries on a plain object with string keys. -/
abbrev Registry := List (ConnId × String)

/-- Property read users[id]: the value at the key, if the key is present. -/
def getEntry : Registry → ConnId → Option String
  | [], _ => none
  | (k, v) :: rest, id => if k = id then some v else getEntry rest id

/-- Property write users[id] = name: overwrites in place if the key exists
(keys of a JavaScript object are unique), otherwise appends at the end,
matching insertion order. -/
def setEntry : Registry → ConnId → String → Registry
  | [], id, name => [(id, name)]
  | (k, v) :: rest, id, name =>
      if k = id then (k, name) :: rest else (k, v) :: setEntry rest id name

/-- Property deletion: delete users[id] removes the key.  On the registries
the server can actually build the key occurs at most once, so removing every
occurrence coincides with deleting the key of a JavaScript object. -/
def removeEntry (us : Registry) (id : ConnId) : Registry :=
  us.filter (fun e => !(e.1 == id))

/-- The in-memory server state the handlers read: the users registry and the
set of live sockets io.sockets.sockets, as the ordered list of their ids. -/
structure ServerState where
  users : Registry
  connected : List ConnId
deriving DecidableEq, Repr

/-- A message envelope as the code builds it: a JavaScript object literal,
i.e. an ordered list of key/value pairs. -/
abbrev Envelope := List (String × JPrim)

/-- One delivery of an envelope to one live socket, produced when an emit
reaches that socket. -/
structure Delivery where
  target : ConnId
  payload : Envelope
deriving DecidableEq, Repr

/-- users[socket.id] || "Anonymous" of the chat-message handler: the
registered name when the key is present and truthy, "Anonymous" otherwise. -/
def resolveName (us : Registry) (id : ConnId) : String :=
  match getEntry us id with
  | some n => if n = "" then "Anonymous" else n
  | none => "Anonymous"

/-- io.sockets.sockets.get(recipientId): a socket is found exactly when the
key is a string naming a live connection (Map keys are the string ids). -/
def socketExists (conns : List ConnId) : JPrim → Bool
  | .str s => conns.contains s
  | _ => false

/-- io.to(room).emit(...): every socket joins the room named by its own id,
so emitting to a room delivers to that one socket when it is live and to
nobody otherwise. -/
def roomTargets (conns : List ConnId) : JPrim → List ConnId
  | .str s => if conns.contains s then [s] else []
  | _ => []

/-- The envelope of the string branch of the chat-message handler
(server.js lines 104-111). -/
def chatStringPayload (username msg : String) (senderId : ConnId) (ts : Int) :
    Envelope :=
  [("username", .str username),
   ("message", .str msg),
   ("type", .str "text"),
   ("senderId", .str senderId),
   ("recipientId", .nullv),
   ("timestamp", .num ts)]

/-- The envelope of the object branch of the chat-message handler
(server.js lines 119-126); recipientId arrives already normalized by
data.recipientId || null. -/
def chatObjPayload (username : String) (message typeRaw : JPrim)
    (senderId : ConnId) (recipientId : JPrim) (ts : Int) : Envelope :=
  [("username", .str username),
   ("message", message),
   ("type", if truthy typeRaw then typeRaw else .str "text"),
   ("senderId", .str senderId),
   ("recipientId", recipientId),
   ("timestamp", .num ts)]

/-- An inbound chat message event: either a bare string or an object; absent
fields of the object arrive as undefined. -/
inductive ChatData where
  | str (s : String)
  | obj (message : JPrim) (recipientId : JPrim) (typeField : JPrim)
deriving DecidableEq, Repr

/-- The chat-message handler (server.js lines 99-136), returning the list of
deliveries its emits produce.  io.emit delivers to every live socket;
socket.emit delivers to the sender; io.to(room).emit delivers per
roomTargets. -/
def chatMessageHandler (st : ServerState) (senderId : ConnId)
    (data : ChatData) (ts : Int) : List Delivery :=
  let username := resolveName st.users senderId
  match data with
  | .str s =>
      st.connected.map (fun t => ⟨t, chatStringPayload username s senderId ts⟩)
  | .obj message recipientRaw typeRaw =>
      let recipientId := if truthy recipientRaw then recipientRaw else .nullv
      let payload := chatObjPayload username message typeRaw senderId recipientId ts
      if truthy recipientId && socketExists st.connected recipientId then
        (roomTargets st.connected recipientId).map (fun t => ⟨t, payload⟩)
          ++ [⟨senderId, payload⟩]
      else
        st.connected.map (fun t => ⟨t, payload⟩)

/-- Events the presence handlers emit.  yourId is socket.emit("your id") to
the connecting client; userList is io.emit("user list") to everyone;
joinNotice is socket.broadcast.emit("user notification") to everyone but the
sender; leaveNotice is io.emit("user notification") to everyone. -/
inductive PresenceEvent where
  | yourId (id : ConnId)
  | userList (entries : Registry)
  | joinNotice (text : String)
  | leaveNotice (text : String)
deriving DecidableEq, Repr

/-- The connection handler (server.js lines 77-81): socket.io has already
added the socket to io.sockets.sockets; the handler body only echoes the
socket id back.  It does not touch the users registry. -/
def connectHandler (st : ServerState) (id : ConnId) :
    ServerState × List PresenceEvent :=
  ({ st with connected := st.connected ++ [id] }, [.yourId id])

/-- A thrown JavaScript error. -/
inductive JsError where
  | typeError
deriving DecidableEq, Repr

/-- White space characters String.prototype.trim strips (the ASCII ones;
the claims only exercise spaces). -/
def isJsWhitespace (c : Char) : Bool :=
  c == ' ' || c == '\t' || c == '\n' || c == '\r' || c == '\x0b' || c == '\x0c'

/-- String.prototype.trim: strip leading and trailing white space. -/
def jsTrim (s : String) : String :=
  ⟨((s.data.dropWhile isJsWhitespace).reverse.dropWhile isJsWhitespace).reverse⟩

/-- username && username.trim() ? username.trim() : "Anonymous"
(server.js line 85).  A falsy payload short-circuits to "Anonymous"; a
truthy string is trimmed, with "Anonymous" replacing a whitespace-only
result; a truthy non-string has no trim method, so the call throws a
TypeError. -/
def assignedName : JPrim → Except JsError String
  | v =>
      if truthy v then
        match v with
        | .str s => .ok (if jsTrim s = "" then "Anonymous" else jsTrim s)
        | _ => .error .typeError
      else .ok "Anonymous"

/-- The set-username handler (server.js lines 84-96).  On success it stores
the assigned name and emits the full user list to everyone and a join
notification to everyone else; a thrown TypeError propagates out of the
handler before any assignment or emit, which the error result models. -/
def setUsernameHandler (st : ServerState) (id : ConnId) (username : JPrim) :
    Except JsError (ServerState × List PresenceEvent) :=
  match assignedName username with
  | .error e => .error e
  | .ok assigned =>
      let users' := setEntry st.users id assigned
      .ok ({ st with users := users' },
           [.userList users', .joinNotice (assigned ++ " joined the chat")])

/-- The disconnect handler (server.js lines 138-149): socket.io removes the
socket from io.sockets.sockets before the event fires; the handler reads the
stored name, deletes the entry, emits the updated user list, and emits a
leave notification only when the stored name was truthy. -/
def disconnectHandler (st : ServerState) (id : ConnId) :
    ServerState × List PresenceEvent :=
  let username := getEntry st.users id
  let users' := removeEntry st.users id
  let evs :=
    match username with
    | some n =>
        if n = "" then [PresenceEvent.userList users']
        else [PresenceEvent.userList users',
              PresenceEvent.leaveNotice (n ++ " left the chat")]
    | none => [PresenceEvent.userList users']
  ({ users := users', connected := st.connected.erase id }, evs)

/-- The character class [a-zA-Z0-9._-] of the multer filename sanitizer. -/
def isSafeChar (c : Char) : Bool :=
  (('a' ≤ c && c ≤ 'z') || ('A' ≤ c && c ≤ 'Z') || ('0' ≤ c && c ≤ '9')
    || c == '.' || c == '_' || c == '-')

/-- file.originalname.replace with every character outside the class
replaced by an underscore (server.js line 24). -/
def sanitize (s : String) : String :=
  ⟨s.data.map (fun c => if isSafeChar c then c else '_')⟩

/-- The stored filename Date.now() + "-" + safeName (server.js line 25). -/
def storedFilename (nowMs : Nat) (originalname : String) : String :=
  toString nowMs ++ "-" ++ sanitize originalname

/-- limits.fileSize of the multer configuration (server.js line 31). -/
def maxFileSize : Nat := 20 * 1024 * 1024

/-- The file multer hands to the upload handler: the client-supplied
original name and the stored filename chosen by the storage callback. -/
structure UploadFile where
  originalname : String
  filename : String
deriving DecidableEq, Repr

/-- The destructured multipart form fields of req.body; a missing field
arrives as undefined, a present field as a string. -/
structure UploadBody where
  senderId : JPrim
  recipientId : JPrim
  username : JPrim
  typeField : JPrim
deriving DecidableEq, Repr

/-- The three possible responses of the upload endpoint. -/
inductive UploadResponse where
  | badRequest (error : String)
  | serverError (error : String)
  | success (fileUrl : String)
deriving DecidableEq, Repr

/-- users[senderId] inside the upload handler: property access on the users
object; only a string key can match a socket-id key, and an absent key reads
as undefined. -/
def usersLookup (us : Registry) : JPrim → JPrim
  | .str s =>
      match getEntry us s with
      | some n => .str n
      | none => .undefinedv
  | _ => .undefinedv

/-- The upload envelope (server.js lines 49-57): seven keys in source order,
among them originalName.  The username is
username || (senderId && users[senderId] ? users[senderId] : "Anonymous")
|| "Anonymous", and recipientId is recipientId || null. -/
def uploadPayload (us : Registry) (b : UploadBody) (f : UploadFile)
    (ts : Int) : Envelope :=
  let fileUrl := "/uploads/" ++ f.filename
  let fallback :=
    if truthy b.senderId && truthy (usersLookup us b.senderId) then
      usersLookup us b.senderId
    else .str "Anonymous"
  let uname := if truthy b.username then b.username
    else if truthy fallback then fallback else .str "Anonymous"
  [("username", uname),
   ("message", .str fileUrl),
   ("type", if truthy b.typeField then b.typeField else .str "file"),
   ("originalName", .str f.originalname),
   ("senderId", b.senderId),
   ("recipientId", if truthy b.recipientId then b.recipientId else .nullv),
   ("timestamp", .num ts)]

/-- The upload endpoint handler (server.js lines 39-73).  When req.body is
undefined (the request was not multipart, so multer populated nothing),
destructuring it throws a TypeError before the file check; the catch block
answers 500 with no emit.  A missing file answers 400 with no emit.
Otherwise the envelope is built and routed: private when recipientId is
truthy and names a live socket (echoed to the sender's room when senderId is
truthy), broadcast to every live socket otherwise. -/
def uploadHandler (st : ServerState) (file : Option UploadFile)
    (body : Option UploadBody) (ts : Int) : UploadResponse × List Delivery :=
  match body with
  | none => (.serverError "Upload failed.", [])
  | some b =>
      match file with
      | none => (.badRequest "No file uploaded.", [])
      | some f =>
          let fileUrl := "/uploads/" ++ f.filename
          let payload := uploadPayload st.users b f ts
          let targets :=
            if truthy b.recipientId && socketExists st.connected b.recipientId then
              roomTargets st.connected b.recipientId
                ++ (if truthy b.senderId then roomTargets st.connected b.senderId
                    else [])
            else
              st.connected
          (.success fileUrl, targets.map (fun t => ⟨t, payload⟩))

/-- The name assignment rule as the spec states it for a string input: trim
the raw name; a trimmed result that is empty becomes "Anonymous", anything
else is kept. -/
def trimmedAssigned (name : String) : String :=
  if jsTrim name = "" then "Anonymous" else jsTrim name

/-- The six envelope fields the spec lists, in the order the live-channel
code writes them. -/
def sixKeys : List String :=
  ["username", "message", "type", "senderId", "recipientId", "timestamp"]

/-- The seven keys the upload handler actually writes, in source order. -/
def uploadKeys : List String :=
  ["username", "message", "type", "originalName", "senderId", "recipientId",
   "timestamp"]

/-! Association-list lemmas about the registry operations. -/

theorem getEntry_eq_none_iff (us : Registry) (id : ConnId) :
    getEntry us id = none ↔ ∀ e ∈ us, e.1 ≠ id := by
  induction us with
  | nil => simp [getEntry]
  | cons hd tl ih =>
      obtain ⟨k, v⟩ := hd
      by_cases hk : k = id
      · subst hk
        simp [getEntry]
      · simp [getEntry, hk, ih]

theorem mem_of_getEntry_eq_some {us : Registry} {id : ConnId} {n : String}
    (h : getEntry us id = some n) : (id, n) ∈ us := by
  induction us with
  | nil => simp [getEntry] at h
  | cons hd tl ih =>
      obtain ⟨k, v⟩ := hd
      by_cases hk : k = id
      · subst hk
        simp [getEntry] at h
        simp [h]
      · simp [getEntry, hk] at h
        exact List.mem_cons_of_mem _ (ih h)

theorem setEntry_of_getEntry_none {us : Registry} {id : ConnId} (v : String)
    (h : getEntry us id = none) : setEntry us id v = us ++ [(id, v)] := by
  induction us with
  | nil => simp [setEntry]
  | cons hd tl ih =>
      obtain ⟨k, w⟩ := hd
      by_cases hk : k = id
      · subst hk
        simp [getEntry] at h
      · simp [getEntry, hk] at h
        simp [setEntry, hk, ih h]

theorem getEntry_setEntry_self (us : Registry) (id : ConnId) (v : String) :
    getEntry (setEntry us id v) id = some v := by
  induction us with
  | nil => simp [setEntry, getEntry]
  | cons hd tl ih =>
      obtain ⟨k, w⟩ := hd
      by_cases hk : k = id
      · subst hk
        simp [setEntry, getEntry]
      · simp [setEntry, getEntry, hk, ih]

theorem getEntry_append_single (us : Registry) (id : ConnId) (v : String)
    (h : getEntry us id = none) : getEntry (us ++ [(id, v)]) id = some v := by
  induction us with
  | nil => simp [getEntry]
  | cons hd tl ih =>
      obtain ⟨k, w⟩ := hd
      by_cases hk : k = id
      · subst hk
        simp [getEntry] at h
      · simp [getEntry, hk] at h ⊢
        exact ih h

theorem removeEntry_append_single (us : Registry) (id : ConnId) (v : String)
    (h : getEntry us id = none) : removeEntry (us ++ [(id, v)]) id = us := by
  have hall := (getEntry_eq_none_iff us id).mp h
  rw [removeEntry, List.filter_append]
  have h1 : us.filter (fun e => !(e.1 == id)) = us := by
    apply List.filter_eq_self.mpr
    intro a ha
    simpa using hall a ha
  have h2 : [(id, v)].filter (fun e => !(e.1 == id)) = [] := by simp
  rw [h1, h2, List.append_nil]

theorem getEntry_removeEntry_self (us : Registry) (id : ConnId) :
    getEntry (removeEntry us id) id = none := by
  rw [getEntry_eq_none_iff]
  intro e he
  rw [removeEntry] at he
  have := List.of_mem_filter he
  simpa using this

/-- Claim C1, counterexample: processing a connect event creates no registry
entry at all, so immediately after the connect event the registry does not
map the new connection to "Anonymous". -/
theorem C1_counterexample :
    getEntry ((connectHandler ⟨[], []⟩ "A").1.users) "A" ≠ some "Anonymous" := by
  simp [connectHandler, getEntry]

/-- Claim C1, amended: processing a connect event leaves the registry
unchanged (the handler only echoes the socket id back); a registry entry
for a connection appears only when that connection sets a name, and after
the disconnect event the registry no longer contains the connection's
identifier. -/
theorem C1_registry_lifecycle (st : ServerState) (id : ConnId) :
    (connectHandler st id).1.users = st.users ∧
    (connectHandler st id).2 = [PresenceEvent.yourId id] ∧
    getEntry ((disconnectHandler st id).1.users) id = none := by
  refine ⟨rfl, rfl, ?_⟩
  exact getEntry_removeEntry_self st.users id

/-- Claim C3, counterexample: connecting a client and disconnecting it with
no name-set in between emits only the id echo on connect and only a user
list on disconnect — no growing user list, no join notification, and in
particular no leave notification, because the disconnect handler suppresses
it when no name was ever stored. -/
theorem C3_counterexample :
    (connectHandler ⟨[], []⟩ "A").2 = [PresenceEvent.yourId "A"] ∧
    (disconnectHandler (connectHandler ⟨[], []⟩ "A").1 "A").2 =
      [PresenceEvent.userList []] := by
  constructor
  · rfl
  · rfl

theorem trimmedAssigned_ne_empty (s : String) : trimmedAssigned s ≠ "" := by
  unfold trimmedAssigned
  by_cases h : jsTrim s = ""
  · simp [h]
  · simp [h]

theorem assignedName_str (s : String) :
    assignedName (.str s) = .ok (trimmedAssigned s) := by
  by_cases h : s = ""
  · subst h
    rfl
  · have hb : (s == "") = false := beq_eq_false_iff_ne.mpr h
    simp [assignedName, truthy, trimmedAssigned, hb]

/-- Claim C3, amended: connect emits only the id echo and no registry
broadcasts.  With a name-set between connect and disconnect, the name-set
event emits one user list grown by one entry and one join notification, and
the disconnect event emits one user list shrunk back and one leave
notification; afterwards the registry no longer contains the identifier.
Without a name-set the disconnect emits only an unchanged user list and no
leave notification (remove returns a name only when one was set). -/
theorem C3_presence_roundtrip (st : ServerState) (id : ConnId) (name : String)
    (hid : getEntry st.users id = none) :
    (connectHandler st id).2 = [PresenceEvent.yourId id] ∧
    setUsernameHandler (connectHandler st id).1 id (.str name) =
      .ok (⟨st.users ++ [(id, trimmedAssigned name)], st.connected ++ [id]⟩,
           [PresenceEvent.userList (st.users ++ [(id, trimmedAssigned name)]),
            PresenceEvent.joinNotice (trimmedAssigned name ++ " joined the chat")]) ∧
    (st.users ++ [(id, trimmedAssigned name)]).length = st.users.length + 1 ∧
    disconnectHandler
        ⟨st.users ++ [(id, trimmedAssigned name)], st.connected ++ [id]⟩ id =
      (⟨st.users, (st.connected ++ [id]).erase id⟩,
       [PresenceEvent.userList st.users,
        PresenceEvent.leaveNotice (trimmedAssigned name ++ " left the chat")]) ∧
    getEntry ((disconnectHandler
        ⟨st.users ++ [(id, trimmedAssigned name)], st.connected ++ [id]⟩
        id).1.users) id = none := by
  have hset : setEntry st.users id (trimmedAssigned name) =
      st.users ++ [(id, trimmedAssigned name)] :=
    setEntry_of_getEntry_none _ hid
  have hget : getEntry (st.users ++ [(id, trimmedAssigned name)]) id =
      some (trimmedAssigned name) :=
    getEntry_append_single _ _ _ hid
  have hrem : removeEntry (st.users ++ [(id, trimmedAssigned name)]) id =
      st.users :=
    removeEntry_append_single _ _ _ hid
  have hne := trimmedAssigned_ne_empty name
  refine ⟨rfl, ?_, by simp, ?_, ?_⟩
  · rw [setUsernameHandler, assignedName_str]
    simp [connectHandler, hset]
  · rw [disconnectHandler]
    simp [hget, hrem, hne]
  · show getEntry (removeEntry (st.users ++ [(id, trimmedAssigned name)]) id)
        id = none
    exact getEntry_removeEntry_self _ _

/-- Claim C3, witness at a concrete run. -/
theorem C3_presence_roundtrip_witness :
    getEntry ([] : Registry) "A" = none ∧
    ([] ++ [("A", trimmedAssigned "Alice")] : Registry).length = 0 + 1 :=
  ⟨by decide, (C3_presence_roundtrip ⟨[], []⟩ "A" "Alice" (by decide)).2.2.1⟩

/-- Claim C7: the set-username handler trims a string payload — an empty or
whitespace-only input assigns "Anonymous", any other input assigns its
trimmed value — stores the assigned name in the registry, uses it in the
join notification and the user list it broadcasts, and subsequent chat
envelopes from that connection carry it as username. -/
theorem C7_setname_trim (st : ServerState) (id : ConnId) (s m : String)
    (ts : Int) :
    assignedName (JPrim.str s) = .ok (trimmedAssigned s) ∧
    trimmedAssigned "" = "Anonymous" ∧
    trimmedAssigned "   " = "Anonymous" ∧
    trimmedAssigned "  Bob " = "Bob" ∧
    setUsernameHandler st id (.str s) =
      .ok (⟨setEntry st.users id (trimmedAssigned s), st.connected⟩,
           [PresenceEvent.userList (setEntry st.users id (trimmedAssigned s)),
            PresenceEvent.joinNotice (trimmedAssigned s ++ " joined the chat")]) ∧
    getEntry (setEntry st.users id (trimmedAssigned s)) id =
      some (trimmedAssigned s) ∧
    (chatMessageHandler ⟨setEntry st.users id (trimmedAssigned s), st.connected⟩
        id (.str m) ts).all
      (fun d => decide
        (("username", JPrim.str (trimmedAssigned s)) ∈ d.payload)) = true := by
  refine ⟨assignedName_str s, by decide, by decide, by decide, ?_,
    getEntry_setEntry_self _ _ _, ?_⟩
  · rw [setUsernameHandler, assignedName_str]
  · have h1 : resolveName (setEntry st.users id (trimmedAssigned s)) id =
        trimmedAssigned s := by
      rw [resolveName, getEntry_setEntry_self]
      simp [trimmedAssigned_ne_empty s]
    simp [chatMessageHandler, h1, List.all_eq_true, chatStringPayload]

/-- Claim C2, counterexample: on the live channel a private message a
connection addresses to itself is delivered to it twice — once to its room
as the recipient and once through the unconditional sender echo — not
exactly once as claimed. -/
theorem C2_counterexample :
    (((chatMessageHandler ⟨[("A", "Alice")], ["A", "B", "C"]⟩ "A"
        (.obj (.str "secret") (.str "A") .undefinedv) 0).map
        Delivery.target).count "A") = 2 := by
  rfl

/-- Claim C2, amended: in private mode the envelope goes to the recipient,
and the live channel echoes it to the sender unconditionally (so a
self-addressed private message arrives twice), while the upload path echoes
to the sender's room whenever a sender identifier is truthy; in both cases
no connection other than the recipient and the sender receives anything. -/
theorem C2_private_delivery (st : ServerState) (senderId r : ConnId)
    (message typeRaw : JPrim) (ts : Int) (b : UploadBody) (f : UploadFile)
    (hr : r ≠ "") (hrc : st.connected.contains r = true)
    (hb : b.recipientId = .str r) :
    (chatMessageHandler st senderId (.obj message (.str r) typeRaw) ts).map
        Delivery.target = [r, senderId] ∧
    (∀ d ∈ chatMessageHandler st senderId (.obj message (.str r) typeRaw) ts,
        d.target = r ∨ d.target = senderId) ∧
    (truthy b.senderId = false →
      (uploadHandler st (some f) (some b) ts).2.map Delivery.target = [r]) ∧
    (∀ sid, b.senderId = .str sid → sid ≠ "" →
      st.connected.contains sid = true →
      (uploadHandler st (some f) (some b) ts).2.map Delivery.target =
        [r, sid]) := by
  have hrb : (r == "") = false := beq_eq_false_iff_ne.mpr hr
  have hm : r ∈ st.connected := by simpa using hrc
  have htr : truthy (JPrim.str r) = true := by simp [truthy, hrb]
  have hse : socketExists st.connected (JPrim.str r) = true := by
    simpa [socketExists] using hm
  have h1 : (chatMessageHandler st senderId (.obj message (.str r) typeRaw)
      ts).map Delivery.target = [r, senderId] := by
    simp [chatMessageHandler, htr, hse, roomTargets, hm, Function.comp_def]
  refine ⟨h1, ?_, ?_, ?_⟩
  · intro d hd
    have : d.target ∈ [r, senderId] := h1 ▸ List.mem_map_of_mem Delivery.target hd
    simpa using this
  · intro hs
    simp [uploadHandler, hb, htr, hse, hs, roomTargets, hm, Function.comp_def]
  · intro sid hsid hsne hsc
    have hsb : (sid == "") = false := beq_eq_false_iff_ne.mpr hsne
    have hts : truthy (JPrim.str sid) = true := by simp [truthy, hsb]
    have hms : sid ∈ st.connected := by simpa using hsc
    simp [uploadHandler, hb, hsid, htr, hse, hts, roomTargets, hm, hms,
      Function.comp_def]

/-- Claim C2, witness at a concrete private exchange. -/
theorem C2_private_delivery_witness :
    "B" ≠ "" ∧ (["A", "B", "C"] : List ConnId).contains "B" = true ∧
    (chatMessageHandler ⟨[], ["A", "B", "C"]⟩ "A"
        (.obj (.str "hi") (.str "B") .undefinedv) 0).map Delivery.target =
      ["B", "A"] :=
  ⟨by decide, by decide,
   (C2_private_delivery ⟨[], ["A", "B", "C"]⟩ "A" "B" (.str "hi") .undefinedv 0
      ⟨.str "A", .str "B", .undefinedv, .undefinedv⟩ ⟨"x", "1-x"⟩ (by decide) (by decide)
      rfl).1⟩

/-- Claim C4: whenever the recipient check fails — the recipient identifier
is absent, null, falsy, or names no live connection — both the live-channel
handler and the upload handler fall back to broadcast mode and deliver
the envelope to every currently connected client (the sender included),
so private mode is chosen only when the identifier is truthy and a live
connection with it exists. -/
theorem C4_broadcast_fallback (st : ServerState) (senderId : ConnId)
    (message recipientRaw typeRaw : JPrim) (ts : Int) (b : UploadBody)
    (f : UploadFile)
    (hchat : (truthy recipientRaw &&
      socketExists st.connected recipientRaw) = false)
    (hup : (truthy b.recipientId &&
      socketExists st.connected b.recipientId) = false) :
    (chatMessageHandler st senderId (.obj message recipientRaw typeRaw)
        ts).map Delivery.target = st.connected ∧
    (uploadHandler st (some f) (some b) ts).2.map Delivery.target =
      st.connected := by
  constructor
  · by_cases htr : truthy recipientRaw = true
    · have hse : socketExists st.connected recipientRaw = false := by
        cases h2 : socketExists st.connected recipientRaw
        · rfl
        · rw [htr, h2] at hchat
          simp at hchat
      simp [chatMessageHandler, htr, hse, Function.comp_def]
    · have htr' : truthy recipientRaw = false := by
        cases h : truthy recipientRaw
        · rfl
        · exact absurd h htr
      have hnull : truthy JPrim.nullv = false := rfl
      simp [chatMessageHandler, htr', hnull, Function.comp_def]
  · simp [uploadHandler, hup, Function.comp_def]

/-- Claim C4, witness: a stale recipient identifier falls back to a
broadcast to all three connections. -/
theorem C4_broadcast_fallback_witness :
    (truthy (JPrim.str "ghost-id") &&
      socketExists ["A", "B", "C"] (JPrim.str "ghost-id")) = false ∧
    (chatMessageHandler ⟨[], ["A", "B", "C"]⟩ "A"
        (.obj (.str "x") (.str "ghost-id") .undefinedv) 0).map Delivery.target =
      ["A", "B", "C"] :=
  ⟨by decide,
   (C4_broadcast_fallback ⟨[], ["A", "B", "C"]⟩ "A" (.str "x")
      (.str "ghost-id") .undefinedv 0 ⟨.str "A", .str "ghost-id", .undefinedv, .undefinedv⟩
      ⟨"x", "1-x"⟩ (by decide) (by decide)).1⟩

/-- Claim C5: a bare-string chat message is broadcast to every currently
connected client, each receiving exactly one envelope whose fields are the
message text, type text, null recipient, the sender's identifier, and the
sender's registered name (Anonymous when none is registered); the recipient
check is never consulted. -/
theorem C5_bare_string_broadcast (st : ServerState) (senderId : ConnId)
    (s : String) (ts : Int)
    (hnodup : st.connected.Nodup)
    (hnames : ∀ e ∈ st.users, e.2 ≠ "") :
    (chatMessageHandler st senderId (.str s) ts).map Delivery.target =
      st.connected ∧
    (∀ t ∈ st.connected,
      (chatMessageHandler st senderId (.str s) ts).count
        ⟨t, chatStringPayload (resolveName st.users senderId) s senderId ts⟩
        = 1) ∧
    (∀ d ∈ chatMessageHandler st senderId (.str s) ts,
      d.payload =
        [("username", JPrim.str (resolveName st.users senderId)),
         ("message", JPrim.str s), ("type", JPrim.str "text"),
         ("senderId", JPrim.str senderId), ("recipientId", JPrim.nullv),
         ("timestamp", JPrim.num ts)]) ∧
    (getEntry st.users senderId = none →
      resolveName st.users senderId = "Anonymous") ∧
    (∀ n, getEntry st.users senderId = some n →
      resolveName st.users senderId = n) := by
  refine ⟨?_, ?_, ?_, ?_, ?_⟩
  · simp [chatMessageHandler, Function.comp_def]
  · intro t ht
    have hinj : Function.Injective (fun t : ConnId =>
        Delivery.mk t (chatStringPayload (resolveName st.users senderId) s
          senderId ts)) := by
      intro a b hab
      simpa using congrArg Delivery.target hab
    rw [chatMessageHandler]
    rw [List.count_map_of_injective _ _ hinj]
    exact List.count_eq_one_of_mem hnodup ht
  · intro d hd
    rw [chatMessageHandler] at hd
    obtain ⟨t, ht, rfl⟩ := List.mem_map.mp hd
    rfl
  · intro h
    simp [resolveName, h]
  · intro n hn
    have hne := hnames (senderId, n) (mem_of_getEntry_eq_some hn)
    simp at hne
    simp [resolveName, hn, hne]

/-- Claim C5, witness at three live connections. -/
theorem C5_bare_string_broadcast_witness :
    (["A", "B", "C"] : List ConnId).Nodup ∧
    (chatMessageHandler ⟨[], ["A", "B", "C"]⟩ "A" (.str "hi") 0).map
        Delivery.target = ["A", "B", "C"] :=
  ⟨by decide,
   (C5_bare_string_broadcast ⟨[], ["A", "B", "C"]⟩ "A" "hi" 0 (by decide)
      (by intro e he; simp at he)).1⟩

/-- Claim C6, counterexample: an upload-originated envelope carries seven
keys — the six of the claim plus originalName — so it does not consist of
exactly the six claimed fields. -/
theorem C6_counterexample :
    ((uploadHandler ⟨[], ["A"]⟩ (some ⟨"a.png", "1-a.png"⟩)
        (some ⟨.str "A", .undefinedv, .str "Bob", .undefinedv⟩) 0).2.map
      (fun d => d.payload.map Prod.fst)) = [uploadKeys] ∧
    uploadKeys ≠ sixKeys := by
  exact ⟨rfl, by decide⟩

/-- Claim C6, amended: every live-channel envelope consists of exactly the
six fields username, message, type, senderId, recipientId, timestamp, while
every upload-originated envelope consists of those six plus originalName,
in source order. -/
theorem C6_envelope_fields (st : ServerState) (senderId : ConnId)
    (data : ChatData) (ts : Int) (b : UploadBody) (f : UploadFile) :
    (chatMessageHandler st senderId data ts).all
      (fun d => d.payload.map Prod.fst == sixKeys) = true ∧
    (uploadHandler st (some f) (some b) ts).2.all
      (fun d => d.payload.map Prod.fst == uploadKeys) = true := by
  constructor
  · simp only [List.all_eq_true]
    intro d hd
    cases data with
    | str s =>
        simp only [chatMessageHandler] at hd
        obtain ⟨t, ht, rfl⟩ := List.mem_map.mp hd
        simp [chatStringPayload, sixKeys]
    | obj m rid t =>
        simp only [chatMessageHandler] at hd
        by_cases hc : (truthy (if truthy rid then rid else JPrim.nullv) &&
            socketExists st.connected
              (if truthy rid then rid else JPrim.nullv)) = true
        · rw [if_pos hc] at hd
          rcases List.mem_append.mp hd with h | h
          · obtain ⟨x, hx, rfl⟩ := List.mem_map.mp h
            simp [chatObjPayload, sixKeys]
          · rw [List.mem_singleton] at h
            subst h
            simp [chatObjPayload, sixKeys]
        · rw [if_neg hc] at hd
          obtain ⟨x, hx, rfl⟩ := List.mem_map.mp hd
          simp [chatObjPayload, sixKeys]
  · simp only [List.all_eq_true]
    intro d hd
    simp only [uploadHandler] at hd
    obtain ⟨x, hx, rfl⟩ := List.mem_map.mp hd
    simp [uploadPayload, uploadKeys]

/-- Claim C8: an upload request without a file is answered 400 with the
error text No file uploaded. and dispatches no envelope; a request whose
processing throws before the envelope is built — modelled here by the
TypeError thrown when req.body is missing and destructured — is answered
500 with the error text Upload failed. and dispatches no envelope either. -/
theorem C8_upload_failures (st : ServerState) (f : Option UploadFile)
    (b : UploadBody) (ts : Int) :
    uploadHandler st none (some b) ts =
      (.badRequest "No file uploaded.", []) ∧
    uploadHandler st f none ts = (.serverError "Upload failed.", []) := by
  exact ⟨rfl, rfl⟩

/-- Claim C9: the stored filename is the capture-time milliseconds, a
hyphen, and the original name with every character outside the class
[A-Za-z0-9._-] replaced by an underscore (so the sanitized name has the
same length, consists only of characters in the class, and the success
response's fileUrl is that filename under the public /uploads/ route); the
configured size cap is 20 MiB. -/
theorem C9_stored_filename (st : ServerState) (b : UploadBody)
    (orig : String) (cts : Nat) (ts : Int) :
    (uploadHandler st (some ⟨orig, storedFilename cts orig⟩) (some b) ts).1 =
      .success ("/uploads/" ++ storedFilename cts orig) ∧
    storedFilename cts orig = toString cts ++ "-" ++ sanitize orig ∧
    (sanitize orig).data =
      orig.data.map (fun c => if isSafeChar c then c else '_') ∧
    (sanitize orig).length = orig.length ∧
    (sanitize orig).data.all isSafeChar = true ∧
    maxFileSize = 20 * 2 ^ 20 := by
  refine ⟨rfl, rfl, rfl, List.length_map _ _, ?_, by norm_num [maxFileSize]⟩
  simp only [sanitize, List.all_eq_true]
  intro c hc
  obtain ⟨a, _, rfl⟩ := List.mem_map.mp hc
  by_cases h : isSafeChar a = true
  · simp [h]
  · simp only [if_neg h]
    decide

/-- Claim C10: a truthy non-string set-username payload makes the handler
throw a TypeError before any assignment or emit — the registry entry is
untouched and no user list or join notification goes out — while falsy
payloads assign Anonymous and string payloads are processed normally. -/
theorem C10_setname_nonstring (st : ServerState) (id : ConnId) (v : JPrim) :
    (truthy v = true → (∀ s, v ≠ JPrim.str s) →
      setUsernameHandler st id v = .error .typeError) ∧
    (truthy v = false →
      setUsernameHandler st id v =
        .ok (⟨setEntry st.users id "Anonymous", st.connected⟩,
             [PresenceEvent.userList (setEntry st.users id "Anonymous"),
              PresenceEvent.joinNotice "Anonymous joined the chat"])) ∧
    (∀ s, v = JPrim.str s →
      setUsernameHandler st id v =
        .ok (⟨setEntry st.users id (trimmedAssigned s), st.connected⟩,
             [PresenceEvent.userList (setEntry st.users id (trimmedAssigned s)),
              PresenceEvent.joinNotice
                (trimmedAssigned s ++ " joined the chat")])) := by
  refine ⟨?_, ?_, ?_⟩
  · intro hv hs
    cases v with
    | str s => exact absurd rfl (hs s)
    | num n => simp [setUsernameHandler, assignedName, hv]
    | bool bb => simp [setUsernameHandler, assignedName, hv]
    | nullv => simp [truthy] at hv
    | undefinedv => simp [truthy] at hv
    | obj => simp [setUsernameHandler, assignedName, hv]
  · intro hv
    simp [setUsernameHandler, assignedName, hv]
  · intro s hsv
    subst hsv
    rw [setUsernameHandler, assignedName_str]

/-- Claim C10, witness: a numeric payload throws, a falsy and a string
payload do not. -/
theorem C10_setname_nonstring_witness :
    truthy (JPrim.num 7) = true ∧
    setUsernameHandler ⟨[], ["A"]⟩ "A" (JPrim.num 7) = .error .typeError :=
  ⟨by decide,
   (C10_setname_nonstring ⟨[], ["A"]⟩ "A" (JPrim.num 7)).1 (by decide)
     (by intro s h; exact JPrim.noConfusion h)⟩

end ChatApp
